import Mathlib

/-!
Shallow embedding of `internal/storage/storage.go` from the gotosocial
storage layer: the `Driver` façade over a local-disk or S3 backend, its
presigned-URL TTL cache, the CSP origin probe, key walking, and the
backend factory functions.

Modelling conventions:
* Go `time.Duration` and `time.Time` values are nanosecond counts (`Nat`);
  the current wall clock `time.Now()` is an explicit `now : Nat` argument.
* The external collaborators (minio S3 client, go-store backend, go-cache
  TTL cache) are represented by oracles stored in the storage structures
  (`sign`, `writeBytes`, `remove`, `keys`) and by an explicit association
  list cache; their contracts follow spec §6 and the go-cache API used by
  the code (`Cache.Get` is a plain map read, `Set` inserts with the
  cache's configured TTL).
* Fallible Go calls return `Except String α`; a Go nil-pointer
  dereference (reading `d.PresignedCache` when it is nil) is the `none`
  result of `Option`-valued operations.
-/

namespace GtsStorage

/-- Nanoseconds in one second (Go `time.Second`). -/
def nsPerSecond : Nat := 1000000000

/-- Constant `urlCacheTTL = time.Hour * 24` from the source, in nanoseconds. -/
def urlCacheTTL : Nat := 24 * 60 * 60 * nsPerSecond

/-- Constant `urlCacheExpiryFrequency = time.Minute * 5` from the source, in nanoseconds. -/
def urlCacheExpiryFrequency : Nat := 5 * 60 * nsPerSecond

/-- The TTL passed to `ttl.New` in `NewS3Storage`:
`urlCacheTTL - urlCacheExpiryFrequency`. -/
def presignedCacheTTL : Nat := urlCacheTTL - urlCacheExpiryFrequency

/-- The components of a Go `net/url.URL` that this code touches:
scheme, host, path and raw query. -/
structure URLStruct where
  scheme : String
  host : String
  path : String
  rawQuery : String
deriving Repr, DecidableEq

/-- Go `net/url.URL.String()` restricted to the four modelled fields
(no user-info, no opaque part; percent-escaping of the components is left
to the environment, as the code never constructs escapable components). -/
def goURLString (u : URLStruct) : String :=
  (if u.scheme ≠ "" then u.scheme ++ ":" else "")
    ++ (if u.scheme ≠ "" ∨ u.host ≠ "" then
          (if u.host ≠ "" ∨ u.path ≠ "" then "//" else "") ++ u.host
        else "")
    ++ (if u.path ≠ "" ∧ ¬ u.path.startsWith "/" ∧ u.host ≠ "" then "/" else "")
    ++ u.path
    ++ (if u.rawQuery ≠ "" then "?" ++ u.rawQuery else "")

/-- Structure `PresignedURL` from the source: a signed URL plus its expiry time. -/
structure PresignedURL where
  url : URLStruct
  Expiry : Nat
deriving Repr, DecidableEq

/-- One entry of the go-cache `ttl.Cache`: the stored value together with
the cache-internal eviction deadline (distinct from `PresignedURL.Expiry`). -/
structure CacheEntry where
  Value : PresignedURL
  Expiry : Nat
deriving Repr, DecidableEq

/-- The go-cache `ttl.Cache[string, PresignedURL]`: its configured TTL and
the underlying key → entry map (as an association list). -/
structure TTLCache where
  TTL : Nat
  entries : List (String × CacheEntry)
deriving Repr, DecidableEq

/-- The direct read of the underlying cache map
(`d.PresignedCache.Cache.Get(key)` under the cache lock): a pure lookup
that does not touch any entry's TTL. -/
def cacheGet (c : TTLCache) (k : String) : Option CacheEntry :=
  c.entries.lookup k

/-- go-cache `Cache.Set(key, value)`: inserts (replacing any previous
entry for the key) with eviction deadline `now + TTL`. -/
def cacheSet (c : TTLCache) (k : String) (v : PresignedURL) (now : Nat) : TTLCache :=
  { c with entries := (k, ⟨v, now + c.TTL⟩) :: c.entries.filter (fun p => p.1 ≠ k) }

/-- One pass of the background sweep started by `presignedCache.Start`:
entries whose eviction deadline has passed are removed. -/
def cacheSweep (c : TTLCache) (now : Nat) : TTLCache :=
  { c with entries := c.entries.filter (fun p => now ≤ p.2.Expiry) }

/-- The disk backend (`storage.DiskStorage` opened by `OpenDisk`), as the
oracle view of the operations the modelled code can reach: its stored
keys in backend-native enumeration order, byte writes and removals. -/
structure DiskStorage where
  keys : List String
  writeBytes : String → List Nat → Except String Nat
  remove : String → Except String Unit

/-- The S3 backend (`storage.S3Storage` opened by `OpenS3`) together with
its minio client: stored keys, `PresignedGetObject(bucket, key, expires,
reqParams)`, byte writes and removals. -/
structure S3Storage where
  keys : List String
  sign : String → String → Nat → List (String × String) → Except String URLStruct
  writeBytes : String → List Nat → Except String Nat
  remove : String → Except String Unit

/-- The dynamic type of `d.Storage`: the type switch
`d.Storage.(*storage.S3Storage)` succeeds exactly on the `s3` arm. -/
inductive Storage where
  | disk : DiskStorage → Storage
  | s3 : S3Storage → Storage

/-- The `Driver` struct from the source. `PresignedCache` is a pointer in
Go, nil when the backend is not S3, hence `Option`. -/
structure Driver where
  Storage : Storage
  Proxy : Bool
  Bucket : String
  PresignedCache : Option TTLCache

/-- The stored keys of the live backend, in backend-native order. -/
def Storage.storedKeys : Storage → List String
  | .disk d => d.keys
  | .s3 s => s.keys

/-- Dispatch of `Driver.Put` → `d.Storage.WriteBytes`. -/
def Storage.doWriteBytes : Storage → String → List Nat → Except String Nat
  | .disk d, k, v => d.writeBytes k v
  | .s3 s, k, v => s.writeBytes k v

/-- Dispatch of `Driver.Delete` → `d.Storage.Remove`. -/
def Storage.doRemove : Storage → String → Except String Unit
  | .disk d, k => d.remove k
  | .s3 s, k => s.remove k

/-- Method `Driver.Put`: delegate a byte write to the backend. -/
def Driver.Put (d : Driver) (key : String) (value : List Nat) : Except String Nat :=
  d.Storage.doWriteBytes key value

/-- Method `Driver.Delete`: delegate a removal to the backend. -/
def Driver.Delete (d : Driver) (key : String) : Except String Unit :=
  d.Storage.doRemove key

/-- Go `path.Ext`, scanning the reversed character list: the suffix from
the final dot in the final slash-separated element, else the empty string. -/
def pathExtRev : List Char → List Char → Option (List Char)
  | [], _ => none
  | c :: rest, acc =>
    if c = '/' then none
    else if c = '.' then some (c :: acc)
    else pathExtRev rest (c :: acc)

/-- Go `path.Ext(p)`. -/
def pathExt (p : String) : String :=
  match pathExtRev p.data.reverse [] with
  | none => ""
  | some l => ⟨l⟩

/-- The Go `mime` package's built-in extension table (`builtinTypesLower`),
consulted by `mime.TypeByExtension` in the environment the code documents. -/
def mimeBuiltinTable : List (String × String) :=
  [ (".avif", "image/avif")
  , (".css", "text/css; charset=utf-8")
  , (".gif", "image/gif")
  , (".htm", "text/html; charset=utf-8")
  , (".html", "text/html; charset=utf-8")
  , (".jpeg", "image/jpeg")
  , (".jpg", "image/jpeg")
  , (".js", "text/javascript; charset=utf-8")
  , (".json", "application/json")
  , (".mjs", "text/javascript; charset=utf-8")
  , (".pdf", "application/pdf")
  , (".png", "image/png")
  , (".svg", "image/svg+xml")
  , (".wasm", "application/wasm")
  , (".webp", "image/webp")
  , (".xml", "text/xml; charset=utf-8") ]

/-- ASCII lowercasing of one character, as the Go `mime` package performs
byte-wise before its lower-case table lookup. -/
def asciiToLower (c : Char) : Char :=
  if 'A' ≤ c ∧ c ≤ 'Z' then Char.ofNat (c.toNat + 32) else c

/-- ASCII lowercasing of a string. -/
def strToLower (s : String) : String := ⟨s.data.map asciiToLower⟩

/-- Go `mime.TypeByExtension`: case-insensitive lookup in the built-in
table, empty string when the extension is unknown. -/
def mimeTypeByExtension (ext : String) : String :=
  match mimeBuiltinTable.lookup (strToLower ext) with
  | some t => t
  | none => ""

/-- The extra query parameters passed to `PresignedGetObject` by
`Driver.URL`: the response-content-type hint derived from the key. -/
def urlReqParams (key : String) : List (String × String) :=
  [("response-content-type", mimeTypeByExtension (pathExt key))]

/-- Method `Driver.URL(ctx, key)` at wall-clock `now`.

Result `none` models the Go nil-pointer panic that would occur if
`d.PresignedCache` were nil when the code reaches the cache access;
`some (r, d')` is a normal return of `r` (the `*PresignedURL`, nil as
`Option.none`) with `d'` the driver after any cache insertion. -/
def Driver.URL (d : Driver) (key : String) (now : Nat) :
    Option (Option PresignedURL × Driver) :=
  match d.Storage with
  | .disk _ => some (none, d)
  | .s3 s3 =>
    if d.Proxy then some (none, d)
    else
      match d.PresignedCache with
      | none => none
      | some c =>
        match cacheGet c key with
        | some e => some (some e.Value, d)
        | none =>
          match s3.sign d.Bucket key urlCacheTTL (urlReqParams key) with
          | .error _ => some (none, d)
          | .ok u =>
            let psu : PresignedURL := { url := u, Expiry := now + urlCacheTTL }
            some (some psu, { d with PresignedCache := some (cacheSet c key psu now) })

/-- The fixed probe key `cspKey` from `ProbeCSPUri`. -/
def cspKey : String := "gotosocial-csp-probe"

instance {ε α : Type} [DecidableEq ε] [DecidableEq α] : DecidableEq (Except ε α) := fun a b =>
  match a, b with
  | .ok x, .ok y => if h : x = y then isTrue (by rw [h]) else isFalse (by simp [h])
  | .ok _, .error _ => isFalse (by simp)
  | .error _, .ok _ => isFalse (by simp)
  | .error x, .error y => if h : x = y then isTrue (by rw [h]) else isFalse (by simp [h])

/-- The observable outcome of one `ProbeCSPUri` call: the returned
`(string, error)` pair, whether the deferred `Delete` of the probe object
ran, and whether its failure was logged as a warning. -/
structure ProbeOutcome where
  result : Except String String
  deleteAttempted : Bool
  deleteWarned : Bool
deriving Repr, DecidableEq

/-- Method `Driver.ProbeCSPUri(ctx)`.

The deferred cleanup is modelled by computing the function's return value
first and then running `Delete`, whose outcome feeds only the
`deleteAttempted`/`deleteWarned` observations, never `result`. -/
def Driver.ProbeCSPUri (d : Driver) : ProbeOutcome :=
  match d.Storage with
  | .disk _ => { result := .ok "", deleteAttempted := false, deleteWarned := false }
  | .s3 s3 =>
    if d.Proxy then { result := .ok "", deleteAttempted := false, deleteWarned := false }
    else
      match d.Put cspKey [] with
      | .error err =>
        { result := .error ("error putting file in bucket at key " ++ cspKey ++ ": " ++ err)
          deleteAttempted := false
          deleteWarned := false }
      | .ok _ =>
        let body : Except String String :=
          match s3.sign d.Bucket cspKey (1 * nsPerSecond) [] with
          | .error err => .error err
          | .ok u =>
            .ok (goURLString { scheme := u.scheme, host := u.host, path := "", rawQuery := "" })
        let warned : Bool :=
          match d.Delete cspKey with
          | .error _ => true
          | .ok _ => false
        { result := body, deleteAttempted := true, deleteWarned := warned }

/-- The fold the backend's `WalkKeys` performs over its entries: apply
`walkFn` to each key in order, stopping at the first error. The visitor
state `σ` makes the visited keys observable. -/
def storageWalkKeysGo {σ ε : Type} (keys : List String)
    (walkFn : σ → String → Except ε σ) (s : σ) : Except ε σ :=
  match keys with
  | [] => .ok s
  | k :: ks =>
    match walkFn s k with
    | .error e => .error e
    | .ok s' => storageWalkKeysGo ks walkFn s'

/-- The `WalkFn` closure installed by `Driver.WalkKeys`: skip the
reserved lock key, otherwise invoke the caller's visitor. -/
def driverWalkFn {σ ε : Type} (walk : σ → String → Except ε σ)
    (s : σ) (key : String) : Except ε σ :=
  if key = "store.lock" then .ok s else walk s key

/-- Method `Driver.WalkKeys(ctx, walk)`: the backend enumerates its stored keys
through the lock-key-skipping closure. -/
def Driver.WalkKeys {σ ε : Type} (d : Driver) (walk : σ → String → Except ε σ)
    (s : σ) : Except ε σ :=
  storageWalkKeysGo d.Storage.storedKeys (driverWalkFn walk) s

/-- Factory `NewFileStorage`: wrap the result of `storage.OpenDisk`. The returned
driver takes Go zero values for `Proxy`, `Bucket` and `PresignedCache`
(false, empty, nil). -/
def NewFileStorage (openDisk : Except String DiskStorage) : Except String Driver :=
  match openDisk with
  | .error e => .error ("error opening disk storage: " ++ e)
  | .ok dsk =>
    .ok { Storage := .disk dsk, Proxy := false, Bucket := "", PresignedCache := none }

/-- Factory `NewS3Storage`: wrap the result of `storage.OpenS3`, attaching a fresh
presigned cache with TTL `urlCacheTTL - urlCacheExpiryFrequency`. `proxy`
and `bucket` stand for the configuration reads. -/
def NewS3Storage (openS3 : Except String S3Storage) (proxy : Bool) (bucket : String) :
    Except String Driver :=
  match openS3 with
  | .error e => .error ("error opening s3 storage: " ++ e)
  | .ok s3 =>
    .ok { Storage := .s3 s3, Proxy := proxy, Bucket := bucket
          PresignedCache := some { TTL := presignedCacheTTL, entries := [] } }

/-- Factory `AutoConfig`: select a backend constructor by the configured backend
name; `s3Result`/`localResult` stand for the two constructor calls. -/
def AutoConfig (backend : String) (s3Result localResult : Except String Driver) :
    Except String Driver :=
  if backend = "s3" then s3Result
  else if backend = "local" then localResult
  else .error ("invalid storage backend: " ++ backend)

/-! Concrete environment instances used to evaluate the model. -/

/-- A concrete presigned URL as the minio client would return it. -/
def sampleURL : URLStruct :=
  { scheme := "https", host := "cdn.example.com"
    path := "/bucket/gotosocial-csp-probe", rawQuery := "X-Sig=abc" }

/-- An S3 backend whose signing call always succeeds with `sampleURL`. -/
def sampleS3 : S3Storage :=
  { keys := ["a.png", "store.lock", "b.txt"]
    sign := fun _ _ _ _ => .ok sampleURL
    writeBytes := fun _ v => .ok v.length
    remove := fun _ => .ok () }

/-- An S3 backend whose signing call always fails. -/
def sampleS3SignFail : S3Storage :=
  { sampleS3 with sign := fun _ _ _ _ => .error "sign refused" }

/-- An S3 backend whose byte writes always fail. -/
def sampleS3PutFail : S3Storage :=
  { sampleS3 with writeBytes := fun _ _ => .error "write refused" }

/-- An S3 backend whose removals always fail. -/
def sampleS3RemoveFail : S3Storage :=
  { sampleS3 with remove := fun _ => .error "remove refused" }

/-- A concrete disk backend. -/
def sampleDisk : DiskStorage :=
  { keys := ["a.png", "store.lock", "b.txt"]
    writeBytes := fun _ v => .ok v.length
    remove := fun _ => .ok () }

/-- The presigned URL produced by a cache miss at time 0. -/
def samplePSU : PresignedURL := { url := sampleURL, Expiry := urlCacheTTL }

/-- An empty presigned cache as built by `NewS3Storage`. -/
def emptyCache : TTLCache := { TTL := presignedCacheTTL, entries := [] }

/-- A cache holding the entry a miss at time 0 for key `"k.png"` inserts. -/
def sampleCacheHit : TTLCache :=
  { TTL := presignedCacheTTL, entries := [("k.png", ⟨samplePSU, presignedCacheTTL⟩)] }

/-! Helper lemmas about the cache model. -/

theorem cacheGet_cacheSet_self (c : TTLCache) (k : String) (v : PresignedURL) (now : Nat) :
    cacheGet (cacheSet c k v now) k = some ⟨v, now + c.TTL⟩ := by
  simp [cacheGet, cacheSet, List.lookup]

theorem lookup_none_of_all_ne (k : String) (l : List (String × CacheEntry))
    (h : ∀ p ∈ l, p.1 ≠ k) : List.lookup k l = none := by
  induction l with
  | nil => rfl
  | cons hd tl ih =>
    have hne : hd.1 ≠ k := h hd (List.mem_cons_self hd tl)
    have hbeq : (k == hd.1) = false := by
      simp only [beq_eq_false_iff_ne, ne_eq]
      exact fun he => hne he.symm
    simp only [List.lookup, hbeq]
    exact ih fun p hp => h p (List.mem_cons_of_mem hd hp)

/-- After the sweep deadline of the inserted entry has passed, a sweep
evicts it: the key is absent from the cache map. -/
theorem cacheSweep_evicts (c : TTLCache) (k : String) (v : PresignedURL)
    (tins tswp : Nat) (h : tins + c.TTL < tswp) :
    cacheGet (cacheSweep (cacheSet c k v tins) tswp) k = none := by
  have hdrop : (decide (tswp ≤ tins + c.TTL)) = false := by
    simp only [decide_eq_false_iff_not]
    omega
  unfold cacheGet cacheSweep cacheSet
  simp only [List.filter_cons, hdrop]
  apply lookup_none_of_all_ne
  intro p hp
  have hp1 : p ∈ List.filter (fun q => q.1 ≠ k) c.entries := List.mem_of_mem_filter hp
  have := List.of_mem_filter hp1
  simpa using this

/-! Theorems for the claims. -/

/-- C2: on a cache miss, if the S3 signing call fails then `URL(k)`
returns nil (`none` as the returned `*PresignedURL`), returns normally
(no panic, no error channel: the outer `some`), and leaves the driver —
hence the presigned-URL cache — unchanged. -/
theorem url_sign_failure_returns_nil
    (s3 : S3Storage) (b k : String) (c : TTLCache) (t : Nat) (msg : String)
    (hmiss : cacheGet c k = none)
    (hsign : s3.sign b k urlCacheTTL (urlReqParams k) = .error msg) :
    Driver.URL ⟨.s3 s3, false, b, some c⟩ k t
      = some (none, ⟨.s3 s3, false, b, some c⟩) := by
  simp [Driver.URL, hmiss, hsign]

/-- Witness for C2 at a concrete driver whose signing backend fails. -/
theorem url_sign_failure_returns_nil_witness :
    Driver.URL ⟨.s3 sampleS3SignFail, false, "bucket", some emptyCache⟩ "k.png" 0
      = some (none, ⟨.s3 sampleS3SignFail, false, "bucket", some emptyCache⟩) :=
  url_sign_failure_returns_nil sampleS3SignFail "bucket" "k.png" emptyCache 0
    "sign refused" rfl rfl

/-- C3: with a non-S3 backend (any `Proxy`) or with `Proxy` true, `URL`
returns nil and `ProbeCSPUri` returns the empty string with no error; and
whenever `URL` does produce a `PresignedURL`, the backend is S3 and
`Proxy` is false. -/
theorem capability_gating
    (dsk : DiskStorage) (s3 : S3Storage) (b k : String) (pc : Option TTLCache)
    (t : Nat) (p : Bool) :
    (Driver.URL ⟨.disk dsk, p, b, pc⟩ k t = some (none, ⟨.disk dsk, p, b, pc⟩)) ∧
    (Driver.URL ⟨.s3 s3, true, b, pc⟩ k t = some (none, ⟨.s3 s3, true, b, pc⟩)) ∧
    (Driver.ProbeCSPUri ⟨.disk dsk, p, b, pc⟩
      = { result := .ok "", deleteAttempted := false, deleteWarned := false }) ∧
    (Driver.ProbeCSPUri ⟨.s3 s3, true, b, pc⟩
      = { result := .ok "", deleteAttempted := false, deleteWarned := false }) ∧
    (∀ (d : Driver) (psu : PresignedURL) (d' : Driver),
      Driver.URL d k t = some (some psu, d') →
      (∃ s, d.Storage = .s3 s) ∧ d.Proxy = false) := by
  refine ⟨by simp [Driver.URL], by simp [Driver.URL],
    by simp [Driver.ProbeCSPUri], by simp [Driver.ProbeCSPUri], ?_⟩
  rintro ⟨st, px, bk, pcache⟩ psu d' h
  cases st with
  | disk dd => simp [Driver.URL] at h
  | s3 ss =>
    cases px with
    | true => simp [Driver.URL] at h
    | false => exact ⟨⟨ss, rfl⟩, rfl⟩

/-- Witness for C3 at concrete drivers for each gated configuration. -/
theorem capability_gating_witness :
    (Driver.URL ⟨.disk sampleDisk, false, "bucket", none⟩ "k.png" 5
      = some (none, ⟨.disk sampleDisk, false, "bucket", none⟩)) ∧
    (Driver.URL ⟨.s3 sampleS3, true, "bucket", none⟩ "k.png" 5
      = some (none, ⟨.s3 sampleS3, true, "bucket", none⟩)) ∧
    (Driver.ProbeCSPUri ⟨.disk sampleDisk, false, "bucket", none⟩
      = { result := .ok "", deleteAttempted := false, deleteWarned := false }) ∧
    (Driver.ProbeCSPUri ⟨.s3 sampleS3, true, "bucket", none⟩
      = { result := .ok "", deleteAttempted := false, deleteWarned := false }) ∧
    ((∃ s, Storage.s3 sampleS3 = Storage.s3 s) ∧ false = false) := by
  have h := capability_gating sampleDisk sampleS3 "bucket" "k.png" none 5 false
  have hget : cacheGet sampleCacheHit "k.png" = some ⟨samplePSU, presignedCacheTTL⟩ := by
    decide
  have hurl : Driver.URL ⟨.s3 sampleS3, false, "bucket", some sampleCacheHit⟩ "k.png" 5
      = some (some samplePSU, ⟨.s3 sampleS3, false, "bucket", some sampleCacheHit⟩) := by
    simp [Driver.URL, hget]
  exact ⟨h.1, h.2.1, h.2.2.1, h.2.2.2.1,
    h.2.2.2.2 ⟨.s3 sampleS3, false, "bucket", some sampleCacheHit⟩ samplePSU _ hurl⟩

/-- C8: the presigned cache TTL configured by `NewS3Storage` is
`urlCacheTTL - urlCacheExpiryFrequency`, strictly shorter than the
24-hour signature validity window, and the sweep period is strictly
shorter than that cache TTL. -/
theorem cache_ttl_strictly_ordered :
    presignedCacheTTL < urlCacheTTL ∧
    urlCacheExpiryFrequency < presignedCacheTTL ∧
    presignedCacheTTL = urlCacheTTL - urlCacheExpiryFrequency ∧
    NewS3Storage (.ok sampleS3) false "bucket"
      = .ok ⟨.s3 sampleS3, false, "bucket",
          some { TTL := presignedCacheTTL, entries := [] }⟩ :=
  ⟨by decide, by decide, rfl, rfl⟩

/-- C9: `AutoConfig` with a backend name that is neither `"s3"` nor
`"local"` fails immediately with an error naming the invalid backend and
yields no driver. -/
theorem autoConfig_invalid_backend
    (backend : String) (s3Result localResult : Except String Driver)
    (h1 : backend ≠ "s3") (h2 : backend ≠ "local") :
    AutoConfig backend s3Result localResult
      = .error ("invalid storage backend: " ++ backend) ∧
    ∀ d : Driver, AutoConfig backend s3Result localResult ≠ .ok d := by
  constructor
  · simp [AutoConfig, h1, h2]
  · intro d
    simp [AutoConfig, h1, h2]

/-- Witness for C9 at the concrete backend name `"memory"`. -/
theorem autoConfig_invalid_backend_witness :
    AutoConfig "memory" (.error "a") (.error "b")
      = .error "invalid storage backend: memory" ∧
    AutoConfig "memory" (.error "a") (.error "b")
      ≠ .ok ⟨.disk sampleDisk, false, "", none⟩ := by
  have h := autoConfig_invalid_backend "memory" (.error "a") (.error "b")
    (by decide) (by decide)
  refine ⟨h.1.trans (congrArg Except.error (by decide)), h.2 _⟩

/-- C10: a driver built by `NewFileStorage` has a nil `PresignedCache`,
yet `URL` and `ProbeCSPUri` both return normally (`URL`'s result is the
non-panic `some`) without ever reaching the cache access. -/
theorem fileStorage_nil_cache_safe
    (o : Except String DiskStorage) (d : Driver) (k : String) (t : Nat)
    (h : NewFileStorage o = .ok d) :
    d.PresignedCache = none ∧
    Driver.URL d k t = some (none, d) ∧
    Driver.ProbeCSPUri d
      = { result := .ok "", deleteAttempted := false, deleteWarned := false } := by
  cases o with
  | error e => simp [NewFileStorage] at h
  | ok dsk =>
    simp only [NewFileStorage, Except.ok.injEq] at h
    subst h
    exact ⟨rfl, by simp [Driver.URL], by simp [Driver.ProbeCSPUri]⟩

/-- Witness for C10 at a concrete disk-backed driver. -/
theorem fileStorage_nil_cache_safe_witness :
    Driver.URL ⟨.disk sampleDisk, false, "", none⟩ "k.png" 7
      = some (none, ⟨.disk sampleDisk, false, "", none⟩) ∧
    Driver.ProbeCSPUri ⟨.disk sampleDisk, false, "", none⟩
      = { result := .ok "", deleteAttempted := false, deleteWarned := false } := by
  have h := fileStorage_nil_cache_safe (.ok sampleDisk)
    ⟨.disk sampleDisk, false, "", none⟩ "k.png" 7 rfl
  exact ⟨h.2.1, h.2.2⟩

/-- By contrast with C10's safe configurations, the nil-cache dereference
channel of the model is reachable only in the S3-without-proxy arm: with a
nil cache there, `URL` hits the modelled panic (`none`). -/
theorem url_s3_nil_cache_panics :
    Driver.URL ⟨.s3 sampleS3, false, "bucket", none⟩ "k.png" 0 = none := rfl

/-- C1: a cache hit returns the cached `PresignedURL` and leaves the
driver (hence the cache entry and its TTL) unchanged, so two `URL(k)`
calls while the entry is cached return the very same value with identical
`Expiry`; once the entry is absent (evicted), a call signs afresh and, the
old entry having been minted at an earlier time, the fresh `Expiry` is
strictly later. -/
theorem url_cache_hit_no_refresh
    (s3 : S3Storage) (b k : String) (c c2 : TTLCache) (e : CacheEntry)
    (u : URLStruct) (t1 t2 t0 t3 : Nat)
    (hget : cacheGet c k = some e)
    (hexp : e.Value.Expiry = t0 + urlCacheTTL)
    (hmiss : cacheGet c2 k = none)
    (hsign : s3.sign b k urlCacheTTL (urlReqParams k) = .ok u)
    (ht : t0 < t3) :
    (Driver.URL ⟨.s3 s3, false, b, some c⟩ k t1
      = some (some e.Value, ⟨.s3 s3, false, b, some c⟩)) ∧
    (Driver.URL ⟨.s3 s3, false, b, some c⟩ k t2
      = some (some e.Value, ⟨.s3 s3, false, b, some c⟩)) ∧
    (Driver.URL ⟨.s3 s3, false, b, some c2⟩ k t3
      = some (some ⟨u, t3 + urlCacheTTL⟩,
          ⟨.s3 s3, false, b, some (cacheSet c2 k ⟨u, t3 + urlCacheTTL⟩ t3)⟩)) ∧
    e.Value.Expiry < t3 + urlCacheTTL := by
  refine ⟨by simp [Driver.URL, hget], by simp [Driver.URL, hget],
    by simp [Driver.URL, hmiss, hsign], ?_⟩
  omega

/-- Witness for C1: a hit at two times returns the time-0 entry, and a
fresh signing after eviction carries a later expiry. -/
theorem url_cache_hit_no_refresh_witness :
    (Driver.URL ⟨.s3 sampleS3, false, "bucket", some sampleCacheHit⟩ "k.png" 5
      = some (some samplePSU, ⟨.s3 sampleS3, false, "bucket", some sampleCacheHit⟩)) ∧
    (Driver.URL ⟨.s3 sampleS3, false, "bucket", some sampleCacheHit⟩ "k.png" 7
      = some (some samplePSU, ⟨.s3 sampleS3, false, "bucket", some sampleCacheHit⟩)) ∧
    (Driver.URL ⟨.s3 sampleS3, false, "bucket", some emptyCache⟩ "k.png" (2 * urlCacheTTL)
      = some (some ⟨sampleURL, 2 * urlCacheTTL + urlCacheTTL⟩,
          ⟨.s3 sampleS3, false, "bucket",
            some (cacheSet emptyCache "k.png"
              ⟨sampleURL, 2 * urlCacheTTL + urlCacheTTL⟩ (2 * urlCacheTTL))⟩)) ∧
    samplePSU.Expiry < 2 * urlCacheTTL + urlCacheTTL :=
  url_cache_hit_no_refresh sampleS3 "bucket" "k.png" sampleCacheHit emptyCache
    ⟨samplePSU, presignedCacheTTL⟩ sampleURL 5 7 0 (2 * urlCacheTTL)
    (by decide) (by decide) rfl rfl (by decide)

/-- C6: on a cache miss, `URL(k)` asks the S3 client for a URL valid for
the fixed 24-hour window, parameterized with the response-content-type
derived from the key's extension by MIME lookup, and on success stores a
`PresignedURL` with `Expiry = now + 24h` in the cache under `k` (with the
cache's own TTL as eviction deadline) in the driver it returns. -/
theorem url_miss_signs_and_caches
    (s3 : S3Storage) (b k : String) (c : TTLCache) (t : Nat) (u : URLStruct)
    (hmiss : cacheGet c k = none)
    (hsign : s3.sign b k urlCacheTTL (urlReqParams k) = .ok u) :
    urlCacheTTL = 24 * 60 * 60 * 1000000000 ∧
    urlReqParams k = [("response-content-type", mimeTypeByExtension (pathExt k))] ∧
    (Driver.URL ⟨.s3 s3, false, b, some c⟩ k t
      = some (some ⟨u, t + urlCacheTTL⟩,
          ⟨.s3 s3, false, b, some (cacheSet c k ⟨u, t + urlCacheTTL⟩ t)⟩)) ∧
    cacheGet (cacheSet c k ⟨u, t + urlCacheTTL⟩ t) k
      = some ⟨⟨u, t + urlCacheTTL⟩, t + c.TTL⟩ :=
  ⟨rfl, rfl, by simp [Driver.URL, hmiss, hsign],
    cacheGet_cacheSet_self c k ⟨u, t + urlCacheTTL⟩ t⟩

/-- Witness for C6 at key `"a/b.png"`, whose extension maps to
`image/png`. -/
theorem url_miss_signs_and_caches_witness :
    (Driver.URL ⟨.s3 sampleS3, false, "bucket", some emptyCache⟩ "a/b.png" 0
      = some (some ⟨sampleURL, 0 + urlCacheTTL⟩,
          ⟨.s3 sampleS3, false, "bucket",
            some (cacheSet emptyCache "a/b.png" ⟨sampleURL, 0 + urlCacheTTL⟩ 0)⟩)) ∧
    urlReqParams "a/b.png" = [("response-content-type", "image/png")] ∧
    cacheGet (cacheSet emptyCache "a/b.png" ⟨sampleURL, 0 + urlCacheTTL⟩ 0) "a/b.png"
      = some ⟨⟨sampleURL, 0 + urlCacheTTL⟩, 0 + presignedCacheTTL⟩ := by
  have h := url_miss_signs_and_caches sampleS3 "bucket" "a/b.png" emptyCache 0
    sampleURL rfl rfl
  exact ⟨h.2.2.1, by decide, h.2.2.2⟩

/-- C4: on a successful probe (put and sign both succeed), `ProbeCSPUri`
returns the presigned URL stripped to scheme and host: with nonempty
scheme and host, exactly `scheme ++ "://" ++ host`, the path, query and
signature discarded. -/
theorem probe_returns_scheme_host
    (s3 : S3Storage) (b : String) (pc : Option TTLCache) (n : Nat) (u : URLStruct)
    (hput : s3.writeBytes cspKey [] = .ok n)
    (hsign : s3.sign b cspKey (1 * nsPerSecond) [] = .ok u)
    (hs : u.scheme ≠ "") (hh : u.host ≠ "") :
    (Driver.ProbeCSPUri ⟨.s3 s3, false, b, pc⟩).result
      = .ok (goURLString { scheme := u.scheme, host := u.host, path := "", rawQuery := "" }) ∧
    (Driver.ProbeCSPUri ⟨.s3 s3, false, b, pc⟩).result
      = .ok (u.scheme ++ "://" ++ u.host) := by
  rw [one_mul] at hsign
  have h1 : (Driver.ProbeCSPUri ⟨.s3 s3, false, b, pc⟩).result
      = .ok (goURLString { scheme := u.scheme, host := u.host, path := "", rawQuery := "" }) := by
    simp [Driver.ProbeCSPUri, Driver.Put, Driver.Delete, Storage.doWriteBytes,
      Storage.doRemove, hput, hsign]
  refine ⟨h1, h1.trans (congrArg Except.ok ?_)⟩
  simp only [goURLString, hs, hh, ne_eq, not_false_eq_true, true_or, or_true,
    if_true, if_pos, not_true_eq_false, false_and, and_false, if_false,
    String.append_empty]
  rw [String.append_assoc, ← String.append_assoc ":" "//" u.host,
    show ((":" : String) ++ "//") = "://" from rfl, ← String.append_assoc]

/-- Witness for C4: the spec's example URL
`https://cdn.example.com/bucket/gotosocial-csp-probe?X-Sig=...` is
stripped to exactly `https://cdn.example.com`. -/
theorem probe_returns_scheme_host_witness :
    (Driver.ProbeCSPUri ⟨.s3 sampleS3, false, "bucket", none⟩).result
      = .ok "https://cdn.example.com" := by
  have h := probe_returns_scheme_host sampleS3 "bucket" none 0 sampleURL rfl rfl
    (by decide) (by decide)
  exact h.2.trans (congrArg Except.ok (by decide))

/-- C5: a put or signing failure is returned to the caller as an error
(the put error wrapped with the probe key); after a successful put the
deferred delete runs on both the signing-failure and the success paths;
and the returned `(string, error)` never depends on the remove oracle,
a delete failure being recorded only as the logged warning. -/
theorem probe_error_phases
    (s3 : S3Storage) (b : String) (pc : Option TTLCache) :
    (∀ m, s3.writeBytes cspKey [] = .error m →
      Driver.ProbeCSPUri ⟨.s3 s3, false, b, pc⟩
        = { result := .error ("error putting file in bucket at key " ++ cspKey ++ ": " ++ m)
            deleteAttempted := false, deleteWarned := false }) ∧
    (∀ n m, s3.writeBytes cspKey [] = .ok n →
      s3.sign b cspKey (1 * nsPerSecond) [] = .error m →
      (Driver.ProbeCSPUri ⟨.s3 s3, false, b, pc⟩).result = .error m ∧
      (Driver.ProbeCSPUri ⟨.s3 s3, false, b, pc⟩).deleteAttempted = true) ∧
    (∀ n u, s3.writeBytes cspKey [] = .ok n →
      s3.sign b cspKey (1 * nsPerSecond) [] = .ok u →
      (Driver.ProbeCSPUri ⟨.s3 s3, false, b, pc⟩).deleteAttempted = true) ∧
    (∀ r, (Driver.ProbeCSPUri ⟨.s3 ⟨s3.keys, s3.sign, s3.writeBytes, r⟩, false, b, pc⟩).result
        = (Driver.ProbeCSPUri ⟨.s3 s3, false, b, pc⟩).result) := by
  refine ⟨?_, ?_, ?_, ?_⟩
  · intro m hw
    simp [Driver.ProbeCSPUri, Driver.Put, Storage.doWriteBytes, hw]
  · intro n m hw hsig
    rw [one_mul] at hsig
    constructor <;>
      simp [Driver.ProbeCSPUri, Driver.Put, Driver.Delete, Storage.doWriteBytes,
        Storage.doRemove, hw, hsig]
  · intro n u hw hsig
    rw [one_mul] at hsig
    simp [Driver.ProbeCSPUri, Driver.Put, Driver.Delete, Storage.doWriteBytes,
      Storage.doRemove, hw, hsig]
  · intro r
    cases hw : s3.writeBytes cspKey [] with
    | error m =>
      simp [Driver.ProbeCSPUri, Driver.Put, Storage.doWriteBytes, hw]
    | ok n =>
      simp [Driver.ProbeCSPUri, Driver.Put, Driver.Delete, Storage.doWriteBytes,
        Storage.doRemove, hw]

/-- Witness for C5 at concrete backends exercising each phase. -/
theorem probe_error_phases_witness :
    (Driver.ProbeCSPUri ⟨.s3 sampleS3PutFail, false, "bucket", none⟩
      = { result := .error ("error putting file in bucket at key "
            ++ cspKey ++ ": " ++ "write refused")
          deleteAttempted := false, deleteWarned := false }) ∧
    ((Driver.ProbeCSPUri ⟨.s3 sampleS3SignFail, false, "bucket", none⟩).result
      = .error "sign refused") ∧
    ((Driver.ProbeCSPUri ⟨.s3 sampleS3SignFail, false, "bucket", none⟩).deleteAttempted
      = true) ∧
    ((Driver.ProbeCSPUri ⟨.s3 sampleS3, false, "bucket", none⟩).deleteAttempted = true) ∧
    ((Driver.ProbeCSPUri ⟨.s3 ⟨sampleS3.keys, sampleS3.sign, sampleS3.writeBytes,
        fun _ => .error "remove refused"⟩, false, "bucket", none⟩).result
      = (Driver.ProbeCSPUri ⟨.s3 sampleS3, false, "bucket", none⟩).result) :=
  ⟨(probe_error_phases sampleS3PutFail "bucket" none).1 "write refused" rfl,
    ((probe_error_phases sampleS3SignFail "bucket" none).2.1 0 "sign refused" rfl rfl).1,
    ((probe_error_phases sampleS3SignFail "bucket" none).2.1 0 "sign refused" rfl rfl).2,
    (probe_error_phases sampleS3 "bucket" none).2.2.1 0 sampleURL rfl rfl,
    (probe_error_phases sampleS3 "bucket" none).2.2.2 (fun _ => .error "remove refused")⟩

/-! Helper lemmas about the key walk. -/

theorem walkGo_filter {σ ε : Type} (keys : List String)
    (walk : σ → String → Except ε σ) (s : σ) :
    storageWalkKeysGo keys (driverWalkFn walk) s
      = storageWalkKeysGo (keys.filter (fun k => k != "store.lock")) walk s := by
  induction keys generalizing s with
  | nil => rfl
  | cons k ks ih =>
    by_cases hk : k = "store.lock"
    · subst hk
      simpa [storageWalkKeysGo, driverWalkFn, List.filter_cons] using ih s
    · have hb : (k != "store.lock") = true := by simp [bne_iff_ne, hk]
      simp only [storageWalkKeysGo, driverWalkFn, if_neg hk, List.filter_cons, hb, if_pos]
      cases hw : walk s k with
      | error e => rfl
      | ok s' => exact ih s'

theorem walkGo_record {ε : Type} (keys : List String) (acc : List String) :
    storageWalkKeysGo (ε := ε) keys (fun a k => .ok (a ++ [k])) acc
      = .ok (acc ++ keys) := by
  induction keys generalizing acc with
  | nil => simp [storageWalkKeysGo]
  | cons k ks ih => simp [storageWalkKeysGo, ih]

theorem walkGo_stops_at_error {σ ε : Type} (walk : σ → String → Except ε σ)
    (ks1 : List String) (k : String) (ks2 : List String) (s s' : σ) (e : ε)
    (h1 : storageWalkKeysGo ks1 walk s = .ok s') (h2 : walk s' k = .error e) :
    storageWalkKeysGo (ks1 ++ k :: ks2) walk s = .error e := by
  induction ks1 generalizing s with
  | nil =>
    simp only [storageWalkKeysGo, Except.ok.injEq] at h1
    subst h1
    simp [storageWalkKeysGo, h2]
  | cons a as ih =>
    simp only [storageWalkKeysGo, List.cons_append] at h1 ⊢
    cases hw : walk s a with
    | error e' => rw [hw] at h1; exact absurd h1 (by simp)
    | ok s'' =>
      rw [hw] at h1
      exact ih s'' h1

/-- C7: `WalkKeys` runs the backend enumeration through a closure that
skips the reserved `"store.lock"` key, so the visitor fold is exactly the
fold over the non-lock keys: a pure recording visitor sees every stored
key except the lock key in order, and a visitor error at any point stops
the enumeration and is returned by `WalkKeys`. -/
theorem walkKeys_skips_lock_and_propagates
    {σ ε : Type} (d : Driver) (walk : σ → String → Except ε σ) (s : σ) :
    (Driver.WalkKeys d walk s
      = storageWalkKeysGo (d.Storage.storedKeys.filter (fun k => k != "store.lock")) walk s) ∧
    (Driver.WalkKeys (ε := ε) d (fun (a : List String) k => .ok (a ++ [k])) []
      = .ok (d.Storage.storedKeys.filter (fun k => k != "store.lock"))) ∧
    (∀ (ks1 : List String) (k : String) (ks2 : List String) (s' : σ) (e : ε),
      d.Storage.storedKeys.filter (fun k => k != "store.lock") = ks1 ++ k :: ks2 →
      storageWalkKeysGo ks1 walk s = .ok s' →
      walk s' k = .error e →
      Driver.WalkKeys d walk s = .error e) := by
  refine ⟨walkGo_filter d.Storage.storedKeys walk s, ?_, ?_⟩
  · have h := (walkGo_filter (ε := ε) d.Storage.storedKeys
      (fun (a : List String) k => .ok (a ++ [k])) []).trans
      (walkGo_record (d.Storage.storedKeys.filter (fun k => k != "store.lock")) [])
    simpa using h
  · intro ks1 k ks2 s' e hf h1 h2
    have h := walkGo_filter d.Storage.storedKeys walk s
    rw [hf] at h
    exact h.trans (walkGo_stops_at_error walk ks1 k ks2 s s' e h1 h2)

/-- Witness for C7: the lock key is hidden from a recording visitor, and
an error on `"b.txt"` stops the walk and is returned. -/
theorem walkKeys_skips_lock_and_propagates_witness :
    (Driver.WalkKeys (ε := Unit) ⟨.disk sampleDisk, false, "", none⟩
      (fun (a : List String) k => .ok (a ++ [k])) [] = .ok ["a.png", "b.txt"]) ∧
    (Driver.WalkKeys (ε := Unit) ⟨.disk sampleDisk, false, "", none⟩
      (fun (a : List String) k => if k = "b.txt" then .error () else .ok (a ++ [k])) []
      = .error ()) := by
  constructor
  · have h2 := (walkKeys_skips_lock_and_propagates (ε := Unit)
      ⟨.disk sampleDisk, false, "", none⟩
      (fun (a : List String) k => .ok (a ++ [k])) []).2.1
    exact h2.trans (congrArg Except.ok (by decide))
  · exact (walkKeys_skips_lock_and_propagates (ε := Unit)
      ⟨.disk sampleDisk, false, "", none⟩
      (fun (a : List String) k => if k = "b.txt" then .error () else .ok (a ++ [k])) []).2.2
      ["a.png"] "b.txt" [] ["a.png"] () (by decide) rfl rfl

end GtsStorage
